import Mathlib

/-!
Shallow embedding of the converter script
(src/engine/normative_db/convert_excel_to_sqlite_final_fixed (4).py).

Modelling conventions.
* Python strings are modelled by Lean String (a list of characters); the
  behaviour of str.lower, str.upper, str.strip and of the regex classes
  \s, \d, [A-Z], [A-Z0-9.] is modelled on their ASCII fragment, which covers
  every string the claims touch.
* A missing column or a NaN cell is modelled as Option.none; the scalar held
  by a present cell is modelled as a string (the script passes each scalar
  through str before using it).
* Each regex of the source is hand-compiled to a deterministic matcher whose
  backtracking behaviour agrees with Python re.search or re.match on the
  pattern in question (every quantifier in those patterns operates on a
  character class disjoint from what follows it, so greedy matching with the
  stated fall-back alternatives is exact).
* int(...) applied to a non-numeric string raises ValueError in Python; the
  key generator therefore returns Option String, with none modelling the
  raised exception and some k a normal return of the key k.
-/

namespace Legitimus

/-- ASCII fragment of the Python regex class \s and of the default
str.strip character set. -/
def isSp (c : Char) : Bool :=
  c = ' ' || c = '\t' || c = '\n' || c = '\r' || c = '\x0b' || c = '\x0c'

/-- ASCII model of str.lower on one character. -/
def lowChar : Char → Char
  | 'A' => 'a' | 'B' => 'b' | 'C' => 'c' | 'D' => 'd' | 'E' => 'e' | 'F' => 'f'
  | 'G' => 'g' | 'H' => 'h' | 'I' => 'i' | 'J' => 'j' | 'K' => 'k' | 'L' => 'l'
  | 'M' => 'm' | 'N' => 'n' | 'O' => 'o' | 'P' => 'p' | 'Q' => 'q' | 'R' => 'r'
  | 'S' => 's' | 'T' => 't' | 'U' => 'u' | 'V' => 'v' | 'W' => 'w' | 'X' => 'x'
  | 'Y' => 'y' | 'Z' => 'z'
  | c => c

/-- ASCII model of str.upper on one character. -/
def upChar : Char → Char
  | 'a' => 'A' | 'b' => 'B' | 'c' => 'C' | 'd' => 'D' | 'e' => 'E' | 'f' => 'F'
  | 'g' => 'G' | 'h' => 'H' | 'i' => 'I' | 'j' => 'J' | 'k' => 'K' | 'l' => 'L'
  | 'm' => 'M' | 'n' => 'N' | 'o' => 'O' | 'p' => 'P' | 'q' => 'Q' | 'r' => 'R'
  | 's' => 'S' | 't' => 'T' | 'u' => 'U' | 'v' => 'V' | 'w' => 'W' | 'x' => 'X'
  | 'y' => 'Y' | 'z' => 'Z'
  | c => c

/-- The 26 ASCII lowercase letters. -/
def asciiLowerB : Char → Bool
  | 'a' | 'b' | 'c' | 'd' | 'e' | 'f' | 'g' | 'h' | 'i' | 'j' | 'k' | 'l' | 'm'
  | 'n' | 'o' | 'p' | 'q' | 'r' | 's' | 't' | 'u' | 'v' | 'w' | 'x' | 'y'
  | 'z' => true
  | _ => false

/-- The character class [A-Z0-9.] of the key-splitting regex, together with
the lowercase letters admitted by re.IGNORECASE. -/
def keyCharB (c : Char) : Bool :=
  (decide ('A' ≤ c) && decide (c ≤ 'Z')) ||
  (decide ('a' ≤ c) && decide (c ≤ 'z')) ||
  c.isDigit || c = '.'

/-- The character class [A-Z] under re.IGNORECASE. -/
def letterB (c : Char) : Bool :=
  (decide ('A' ≤ c) && decide (c ≤ 'Z')) ||
  (decide ('a' ≤ c) && decide (c ≤ 'z'))

/-- str.strip on a character list: drop whitespace from both ends. -/
def stripL (cs : List Char) : List Char :=
  ((cs.dropWhile isSp).reverse.dropWhile isSp).reverse

/-- str.strip. -/
def pyStrip (s : String) : String := String.mk (stripL s.data)

/-- str.lower (ASCII model). -/
def pyLower (s : String) : String := String.mk (s.data.map lowChar)

/-- str.upper (ASCII model). -/
def pyUpper (s : String) : String := String.mk (s.data.map upChar)

/-- Python substring containment (the in operator on str). -/
def substrL (pat : List Char) : List Char → Bool
  | [] => pat.isEmpty
  | c :: rest => pat.isPrefixOf (c :: rest) || substrL pat rest

/-- Python substring containment on String. -/
def substrS (pat s : String) : Bool := substrL pat.data s.data

/-- re.search driver: try the positional matcher f at every start position,
leftmost success wins. -/
def scanL {α : Type} (f : List Char → Option α) : List Char → Option α
  | [] => f []
  | c :: rest =>
    match f (c :: rest) with
    | some r => some r
    | none => scanL f rest

/-- limpiar_numero: NaN yields the empty string, otherwise every non-digit
character is removed (re.sub applied to the non-digit class). -/
def limpiar_numero (texto : Option String) : String :=
  match texto with
  | none => ""
  | some t => String.mk (t.data.filter Char.isDigit)

/-- Worker for the first substitution of normalizar_nombreparte, structurally
recursive on a fuel argument so that the kernel can evaluate it; the fuel is
always instantiated with the length of the list, which suffices because every
step shortens the list. -/
def subArticuloFuel : Nat → List Char → List Char
  | 0, cs => cs
  | fuel + 1, cs =>
    match cs with
    | 'a' :: 'r' :: 't' :: x :: 'c' :: 'u' :: 'l' :: 'o' :: rest =>
      if x = 'í' || x = 'i' then
        'a' :: 'r' :: 't' :: 'i' :: 'c' :: 'u' :: 'l' :: 'o' :: subArticuloFuel fuel rest
      else
        'a' :: subArticuloFuel fuel ('r' :: 't' :: x :: 'c' :: 'u' :: 'l' :: 'o' :: rest)
    | c :: rest => c :: subArticuloFuel fuel rest
    | [] => []

/-- First substitution of normalizar_nombreparte: every occurrence of the
pattern matching articulo with a plain or accented i is rewritten to the
unaccented articulo, left to right, non-overlapping. -/
def subArticulo (cs : List Char) : List Char := subArticuloFuel cs.length cs

/-- Second substitution of normalizar_nombreparte: a leading art, an optional
dot and the following whitespace are replaced by the nine characters of
articulo followed by one space. -/
def subLeadingArt : List Char → List Char
  | 'a' :: 'r' :: 't' :: rest =>
    'a' :: 'r' :: 't' :: 'i' :: 'c' :: 'u' :: 'l' :: 'o' :: ' ' ::
      ((match rest with | '.' :: r => r | _ => rest).dropWhile isSp)
  | cs => cs

/-- Worker for the third substitution of normalizar_nombreparte: the flag
records whether the previous character belonged to a whitespace run already
replaced by a single space. -/
def collapseAux : Bool → List Char → List Char
  | _, [] => []
  | inRun, c :: rest =>
    if isSp c then
      if inRun then collapseAux true rest else ' ' :: collapseAux true rest
    else c :: collapseAux false rest

/-- Third substitution of normalizar_nombreparte: every maximal whitespace
run collapses to a single space. -/
def collapseWs (cs : List Char) : List Char := collapseAux false cs

/-- normalizar_nombreparte from the source; none models a NaN cell. -/
def normalizar_nombreparte (texto : Option String) : String :=
  match texto with
  | none => ""
  | some t =>
    let t0 := pyStrip (pyLower t)
    pyStrip (String.mk (collapseWs (subLeadingArt (subArticulo t0.data))))

/-- The ordinal-suffix alternation of the article-extraction regex, tried in
the declared order, each word matched as a plain prefix. -/
def sufWord (r : List Char) : Option (List Char) :=
  if "bis".data.isPrefixOf r then some "bis".data
  else if "ter".data.isPrefixOf r then some "ter".data
  else if "quater".data.isPrefixOf r then some "quater".data
  else if "quinquies".data.isPrefixOf r then some "quinquies".data
  else if "sexies".data.isPrefixOf r then some "sexies".data
  else none

/-- The captured group of the article-extraction regex: whitespace, one or
more digits, then optionally whitespace and an ordinal suffix word. -/
def artNumGroup (t : List Char) : Option (List Char) :=
  let t1 := t.dropWhile isSp
  match t1 with
  | c :: _ =>
    if c.isDigit then
      let d := t1.takeWhile Char.isDigit
      let r := t1.dropWhile Char.isDigit
      let sp := r.takeWhile isSp
      match sufWord (r.dropWhile isSp) with
      | some w => some (d ++ sp ++ w)
      | none => some d
    else none
  | [] => none

/-- Positional matcher of the article-extraction regex: the marker is the
full word articulo (plain or accented i) or the abbreviation art with an
optional dot, followed by the number group. -/
def matchArtMarkAt (cs : List Char) : Option (List Char) :=
  (match cs with
   | 'a' :: 'r' :: 't' :: x :: 'c' :: 'u' :: 'l' :: 'o' :: rest =>
     if x = 'í' || x = 'i' then artNumGroup rest else none
   | _ => none).orElse (fun _ =>
    match cs with
    | 'a' :: 'r' :: 't' :: rest =>
      artNumGroup (match rest with | '.' :: r => r | _ => rest)
    | _ => none)

/-- extraer_numero_articulo from the source; none models a NaN cell. -/
def extraer_numero_articulo (texto : Option String) : String :=
  match texto with
  | none => ""
  | some t =>
    let s := pyStrip (pyLower t)
    match scanL matchArtMarkAt s.data with
    | some g => String.mk (stripL g)
    | none =>
      let s2 := pyStrip s
      if !s2.data.isEmpty && s2.data.all Char.isDigit then s2 else ""

/-- The ordered special-code table CODIGOS_ESPECIALES; a Python dict keeps
insertion order, so the source table is an ordered association list. -/
def CODIGOS_ESPECIALES : List (String × String) :=
  [("codigo civil dfl 1 2000 articulo 2 con doble articulado", "CCCH"),
   ("codigo penal", "CPCH"),
   ("codigo de comercio", "CCOM"),
   ("codigo del trabajo", "CTCH"),
   ("codigo tributario", "CTRIB"),
   ("codigo sanitario", "CSAN"),
   ("codigo organico de tribunales", "COT"),
   ("codigo procesal penal", "CPP"),
   ("codigo de procedimiento civil", "CPC"),
   ("constitucion politica", "CRCH"),
   ("constitucion", "CRCH"),
   ("ley de abandono de familia y pensiones dfl 1 2000 articulo 7 con doble articulado", "LAFP"),
   ("ley de cambio de nombres dfl 1 2000 articulo 4 con doble articulado", "LCN"),
   ("ley de impuesto a la herencia y donaciones dfl 1 2000 articulo 8 con doble articulado", "LIHD"),
   ("ley de menores dfl 1 2000 articulo 6 con doble articulado", "LM"),
   ("ley del registro civil dfl 1 2000 articulo 3 con doble articulado", "LRC")]

/-- Shared tail of the DFL and DL regexes: whitespace, the captured digit run,
whitespace, and an optional captured block of exactly four digits. -/
def matchNumYear (t : List Char) : Option (List Char × List Char) :=
  let t1 := t.dropWhile isSp
  let num := t1.takeWhile Char.isDigit
  if num.isEmpty then none
  else
    let t2 := (t1.dropWhile Char.isDigit).dropWhile isSp
    match t2 with
    | a :: b :: c :: d :: _ =>
      if a.isDigit && b.isDigit && c.isDigit && d.isDigit then some (num, [a, b, c, d])
      else some (num, [])
    | _ => some (num, [])

/-- Positional matcher of the DFL regex. -/
def matchDFLAt : List Char → Option (List Char × List Char)
  | 'd' :: 'f' :: 'l' :: rest => matchNumYear rest
  | _ => none

/-- Positional matcher of the DL regex: the alternation tries the spelled-out
decreto ley first and the abbreviation dl second. -/
def matchDLAt (cs : List Char) : Option (List Char × List Char) :=
  (match cs with
   | 'd' :: 'e' :: 'c' :: 'r' :: 'e' :: 't' :: 'o' :: rest =>
     (match rest.dropWhile isSp with
      | 'l' :: 'e' :: 'y' :: r2 => matchNumYear r2
      | _ => none)
   | _ => none).orElse (fun _ =>
    match cs with
    | 'd' :: 'l' :: rest => matchNumYear rest
    | _ => none)

/-- Captured group of the ley regex: one digit followed by any run of digits
and dots. -/
def leyNum : List Char → Option (List Char)
  | c :: r =>
    if c.isDigit then some (c :: r.takeWhile (fun x => x.isDigit || x = '.'))
    else none
  | [] => none

/-- Positional matcher of the ley regex: the word ley, whitespace, an optional
num or accented num marker with an optional dot and whitespace, then the
number group. -/
def matchLeyAt : List Char → Option (List Char)
  | 'l' :: 'e' :: 'y' :: rest =>
    let t1 := rest.dropWhile isSp
    (match t1 with
     | 'n' :: u :: 'm' :: r =>
       if u = 'u' || u = 'ú' then
         leyNum ((match r with | '.' :: rr => rr | _ => r).dropWhile isSp)
       else none
     | _ => none).orElse (fun _ => leyNum t1)
  | _ => none

/-- Captured group of the decreto supremo regex: a plain digit run. -/
def dsNum : List Char → Option (List Char)
  | c :: r => if c.isDigit then some (c :: r.takeWhile Char.isDigit) else none
  | [] => none

/-- Positional matcher of the decreto supremo regex, with the optional
marker n followed by an optional degree or ordinal sign and whitespace. -/
def matchDSAt : List Char → Option (List Char)
  | 'd' :: 'e' :: 'c' :: 'r' :: 'e' :: 't' :: 'o' :: rest =>
    (match rest.dropWhile isSp with
     | 's' :: 'u' :: 'p' :: 'r' :: 'e' :: 'm' :: 'o' :: r2 =>
       let t1 := r2.dropWhile isSp
       (match t1 with
        | 'n' :: r3 =>
          dsNum ((match r3 with | '°' :: rr => rr | 'º' :: rr => rr | _ => r3).dropWhile isSp)
        | _ => none).orElse (fun _ => dsNum t1)
     | _ => none)
  | _ => none

/-- Decimal value of a digit run (used by the model of Python int). -/
def digitsToNat (ds : List Char) : Nat :=
  List.foldl (fun a c => 10 * a + (c.toNat - 48)) 0 ds

/-- Model of Python int applied to a string: optional surrounding whitespace,
an optional sign, then at least one digit; anything else raises ValueError,
modelled as none. -/
def pyInt (s : String) : Option Int :=
  match stripL s.data with
  | '-' :: ds =>
    if !ds.isEmpty && ds.all Char.isDigit then some (-(Int.ofNat (digitsToNat ds))) else none
  | '+' :: ds =>
    if !ds.isEmpty && ds.all Char.isDigit then some (Int.ofNat (digitsToNat ds)) else none
  | ds =>
    if !ds.isEmpty && ds.all Char.isDigit then some (Int.ofNat (digitsToNat ds)) else none

/-- Decimal digits of a positive number, via fuel so the kernel can evaluate;
fuel n suffices for n itself. -/
def natDigsFuel : Nat → Nat → List Char
  | 0, _ => []
  | _, 0 => []
  | fuel + 1, n =>
    natDigsFuel fuel (n / 10) ++
      [(match n % 10 with
        | 0 => '0' | 1 => '1' | 2 => '2' | 3 => '3' | 4 => '4'
        | 5 => '5' | 6 => '6' | 7 => '7' | 8 => '8' | _ => '9')]

/-- Decimal rendering of a natural number, as Python str produces it. -/
def natStr (n : Nat) : String :=
  if n = 0 then "0" else String.mk (natDigsFuel n n)

/-- Decimal rendering of an integer, as a Python f-string renders int. -/
def pyIntStr (n : Int) : String :=
  if n < 0 then "-" ++ natStr n.natAbs else natStr n.natAbs

/-- One spreadsheet row as the key generator sees it: each field is none when
the column is missing or the cell is NaN, and carries the cell rendered as a
string otherwise. -/
structure Row where
  clave_manual : Option String
  norma : Option String
  norma_tipo : Option String
  norma_numero : Option String
  norma_idnorma : Option String

/-- row.get with default empty string followed by str. -/
def getS (o : Option String) : String := o.getD ""

/-- Special-code lookup: first entry, in declared order, whose phrase occurs
in the norm description or in the norm type. -/
def pasoEspeciales (norma tipo : String) : Option String :=
  CODIGOS_ESPECIALES.findSome? (fun pc =>
    if substrS pc.1 norma || substrS pc.1 tipo then some pc.2 else none)

/-- DFL step of generar_clave. -/
def pasoDFL (norma tipo : String) : Option String :=
  if substrS "decreto con fuerza de ley" tipo || substrS "dfl" norma then
    match scanL matchDFLAt norma.data with
    | some ny => some ("DFL" ++ String.mk ny.1 ++ String.mk ny.2)
    | none => none
  else none

/-- Decreto ley step of generar_clave. -/
def pasoDL (norma tipo : String) : Option String :=
  if substrS "decreto ley" tipo || substrS "decreto ley" norma then
    match scanL matchDLAt norma.data with
    | some ny => some ("DL" ++ String.mk ny.1 ++ String.mk ny.2)
    | none => none
  else none

/-- Ley step of generar_clave, including the norm-number fallback inside the
same conditional. -/
def pasoLey (norma tipo : String) (norma_numero : Option String) : Option String :=
  if substrS "ley" tipo || substrS "ley" norma then
    match scanL matchLeyAt norma.data with
    | some g => some ("L" ++ limpiar_numero (some (String.mk g)))
    | none =>
      match norma_numero with
      | some s =>
        if s ≠ "" then
          if limpiar_numero (some s) ≠ "" then some ("L" ++ limpiar_numero (some s)) else none
        else none
      | none => none
  else none

/-- Decreto supremo step of generar_clave. -/
def pasoDS (norma tipo : String) : Option String :=
  if substrS "decreto supremo" tipo || substrS "decreto supremo" norma then
    match scanL matchDSAt norma.data with
    | some g => some ("DS" ++ String.mk g)
    | none => none
  else none

/-- Final step of generar_clave: a present, truthy norm id is fed to int
(whose failure raises, modelled as none); otherwise the UNKNOWN sentinel. -/
def pasoIdnorma (idn : Option String) : Option String :=
  match idn with
  | none => some "UNKNOWN"
  | some s =>
    if s = "" then some "UNKNOWN"
    else (pyInt s).map (fun n => "N" ++ pyIntStr n)

/-- The step cascade of generar_clave over the lowercased, stripped norm
description and norm type. -/
def cascada (norma tipo : String) (norma_numero norma_idnorma : Option String) :
    Option String :=
  match pasoEspeciales norma tipo with
  | some k => some k
  | none =>
    match pasoDFL norma tipo with
    | some k => some k
    | none =>
      match pasoDL norma tipo with
      | some k => some k
      | none =>
        match pasoLey norma tipo norma_numero with
        | some k => some k
        | none =>
          match pasoDS norma tipo with
          | some k => some k
          | none => pasoIdnorma norma_idnorma

/-- The derived-key cascade of generar_clave after the manual-key check. -/
def claveDerivada (r : Row) : Option String :=
  cascada (pyStrip (pyLower (getS r.norma))) (pyStrip (pyLower (getS r.norma_tipo)))
    r.norma_numero r.norma_idnorma

/-- generar_clave from the source.  Returns some key on normal return and
none when the Python original would raise (the int conversion of a present
non-numeric norm id). -/
def generar_clave (r : Row) : Option String :=
  match r.clave_manual with
  | some m => if pyStrip m = "" then claveDerivada r else some (pyUpper (pyStrip m))
  | none => claveDerivada r

/-- Suffix part of the key-splitting regex: a literal dot and ART followed by
the article group, one or more digits then letters, anchored at the end. -/
def artSuffixOk : List Char → Option (List Char)
  | '.' :: 'A' :: 'R' :: 'T' :: rest =>
    if (rest.takeWhile Char.isDigit).isEmpty then none
    else if (rest.dropWhile Char.isDigit).all letterB then some rest
    else none
  | _ => none

/-- Greedy match of the anchored key-splitting regex: the split with the
longest all-key-character prefix wins, exactly as backtracking on the greedy
plus quantifier does. -/
def findArtSplit : List Char → Option (List Char × List Char)
  | [] => none
  | c :: rest =>
    if keyCharB c then
      match findArtSplit rest with
      | some pa => some (c :: pa.1, pa.2)
      | none =>
        match artSuffixOk rest with
        | some a => some ([c], a)
        | none => none
    else none

/-- separar_clave_y_articulo from the source; the argument is none when the
value is NaN or None (pd.isna), in which case the sentinel pair of two nulls
is returned. -/
def separar_clave_y_articulo (clave : Option String) : Option String × Option String :=
  match clave with
  | none => (none, none)
  | some s =>
    let cl := pyUpper (pyStrip s)
    match findArtSplit cl.data with
    | some pa => (some (pyUpper (String.mk pa.1)), some (String.mk pa.2))
    | none => (some cl, none)

/-- A row of the conversion pipeline: the generator fields plus the
numero_articulo cell (outer none when the whole column is missing, inner none
when the cell is null) and the nombreparte cell. -/
structure FullRow where
  fila : Row
  numero_articulo : Option (Option String)
  nombreparte : Option String

/-- pandas Series.fillna on one cell: a null cell takes the filler value. -/
def fillnaCell (orig fill : Option String) : Option String :=
  match orig with
  | some v => some v
  | none => fill

/-- Lines 145 to 153 of the source for one row: generate the key, split it
into base and article, store the base as the key, and set numero_articulo
from the split article when the column is missing or the cell is null.
Returns none when generar_clave raises. -/
def procesarFila (fr : FullRow) : Option (Option String × Option String) :=
  match generar_clave fr.fila with
  | none => none
  | some k =>
    let pa := separar_clave_y_articulo (some k)
    some (pa.1,
      match fr.numero_articulo with
      | none => pa.2
      | some orig => fillnaCell orig pa.2)

/-! Helper lemmas about the embedded primitives. -/

theorem head_dropWhile_false (p : Char → Bool) :
    ∀ (l : List Char) (c : Char) (t : List Char), l.dropWhile p = c :: t → p c = false := by
  intro l
  induction l with
  | nil => intro c t h; simp [List.dropWhile] at h
  | cons a l ih =>
    intro c t h
    by_cases ha : p a
    · exact ih c t (by simpa [List.dropWhile, ha] using h)
    · simp [List.dropWhile, ha] at h
      simp [← h.1, Bool.eq_false_iff, ha]

theorem stripL_exists_not_sp (cs : List Char) (h : stripL cs ≠ []) :
    ∃ c, c ∈ stripL cs ∧ isSp c = false := by
  unfold stripL at h ⊢
  cases hv : (cs.dropWhile isSp).reverse.dropWhile isSp with
  | nil => simp [hv] at h
  | cons c t =>
    refine ⟨c, ?_, head_dropWhile_false isSp _ c t hv⟩
    simp [hv, List.mem_reverse]

theorem stripL_ne_nil (cs : List Char) (c : Char) (hc : c ∈ cs) (hsp : isSp c = false) :
    stripL cs ≠ [] := by
  intro hnil
  unfold stripL at hnil
  have hv : (cs.dropWhile isSp).reverse.dropWhile isSp = [] := by
    simpa using hnil
  have hall : ∀ x ∈ cs.dropWhile isSp, isSp x := by
    intro x hx
    exact (List.dropWhile_eq_nil_iff.mp hv) x (List.mem_reverse.mpr hx)
  have hcs : ∀ x ∈ cs, isSp x = true := by
    intro x hx
    have hsplit : x ∈ cs.takeWhile isSp ++ cs.dropWhile isSp := by
      rw [List.takeWhile_append_dropWhile]; exact hx
    rcases List.mem_append.mp hsplit with hx1 | hx2
    · exact List.mem_takeWhile_imp hx1
    · exact hall x hx2
  rw [hcs c hc] at hsp
  exact Bool.true_eq_false.mp hsp

theorem upChar_not_sp (c : Char) (h : isSp c = false) : isSp (upChar c) = false := by
  unfold upChar
  split <;> first | decide | exact h

theorem asciiLowerB_upChar (c : Char) : asciiLowerB (upChar c) = false := by
  unfold upChar
  split <;> try decide
  unfold asciiLowerB
  split <;> simp_all

theorem pyUpper_noLower (s : String) :
    (pyUpper s).data.all (fun c => !asciiLowerB c) = true := by
  show (s.data.map upChar).all (fun c => !asciiLowerB c) = true
  rw [List.all_map]
  apply List.all_eq_true.mpr
  intro c _
  simp [Function.comp, asciiLowerB_upChar]

theorem pyUpper_data (s : String) : (pyUpper s).data = s.data.map upChar := rfl

theorem pyStrip_data (s : String) : (pyStrip s).data = stripL s.data := rfl

theorem string_ne_empty_of_data (s : String) (h : s.data ≠ []) : s ≠ "" := by
  intro he
  exact h (by rw [he])

theorem artSuffixOk_sound (cs a : List Char) (h : artSuffixOk cs = some a) :
    cs = '.' :: 'A' :: 'R' :: 'T' :: a ∧
    ∃ d l, a = d ++ l ∧ d ≠ [] ∧ (∀ c ∈ d, c.isDigit = true) ∧ (∀ c ∈ l, letterB c = true) := by
  unfold artSuffixOk at h
  split at h
  case _ rest =>
    split at h
    · exact absurd h (by simp)
    case _ hne =>
      split at h
      case _ hlet =>
        have ha : a = rest := by simpa using h.symm
        subst ha
        refine ⟨rfl, a.takeWhile Char.isDigit, a.dropWhile Char.isDigit, ?_, ?_, ?_, ?_⟩
        · exact (List.takeWhile_append_dropWhile Char.isDigit a).symm
        · simpa using hne
        · intro c hc; exact List.mem_takeWhile_imp hc
        · intro c hc; exact List.all_eq_true.mp hlet c hc
      · exact absurd h (by simp)
  · exact absurd h (by simp)

theorem findArtSplit_sound :
    ∀ (cs : List Char) (pa : List Char × List Char), findArtSplit cs = some pa →
      cs = pa.1 ++ ('.' :: 'A' :: 'R' :: 'T' :: pa.2) ∧ pa.1 ≠ [] ∧
      (∀ c ∈ pa.1, keyCharB c = true) ∧
      ∃ d l, pa.2 = d ++ l ∧ d ≠ [] ∧ (∀ c ∈ d, c.isDigit = true) ∧
        (∀ c ∈ l, letterB c = true) := by
  intro cs
  induction cs with
  | nil => intro pa h; exact absurd h (by simp [findArtSplit])
  | cons c rest ih =>
    intro pa h
    unfold findArtSplit at h
    split at h
    case _ hkey =>
      cases hf : findArtSplit rest with
      | some pa2 =>
        rw [hf] at h
        have hpa : pa = (c :: pa2.1, pa2.2) := by simpa using h.symm
        obtain ⟨hshape, hne, hkeys, hart⟩ := ih pa2 hf
        subst hpa
        refine ⟨by simpa using congrArg (c :: ·) hshape, by simp, ?_, hart⟩
        intro x hx
        rcases List.mem_cons.mp hx with hx1 | hx2
        · exact hx1 ▸ hkey
        · exact hkeys x hx2
      | none =>
        rw [hf] at h
        cases hsuf : artSuffixOk rest with
        | some a =>
          rw [hsuf] at h
          have hpa : pa = ([c], a) := by simpa using h.symm
          obtain ⟨hshape, hart⟩ := artSuffixOk_sound rest a hsuf
          subst hpa
          refine ⟨by simpa using congrArg (c :: ·) hshape, by simp, ?_, hart⟩
          intro x hx
          rcases List.mem_cons.mp hx with hx1 | hx2
          · exact hx1 ▸ hkey
          · exact absurd hx2 (by simp)
        | none => rw [hsuf] at h; exact absurd h (by simp)
    · exact absurd h (by simp)

/-! Every branch of the key generator returns a string containing at least one
non-whitespace character. -/

theorem pasoEspeciales_not_sp (norma tipo k : String) (h : pasoEspeciales norma tipo = some k) :
    ∃ c, c ∈ k.data ∧ isSp c = false := by
  obtain ⟨pc, hmem, hpc⟩ := List.exists_of_findSome?_eq_some h
  have hk : k = pc.2 := by
    split at hpc
    · simpa using hpc.symm
    · exact absurd hpc (by simp)
  subst hk
  have hall : CODIGOS_ESPECIALES.all (fun pc => pc.2.data.any (fun c => !isSp c)) = true := by
    decide
  have hany := List.all_eq_true.mp hall pc hmem
  obtain ⟨c, hc, hcn⟩ := List.any_eq_true.mp hany
  exact ⟨c, hc, by simpa using hcn⟩

theorem head_mem_append_not_sp (pre s : String) (c : Char) (hc : c ∈ pre.data)
    (hsp : isSp c = false) : ∃ x, x ∈ (pre ++ s).data ∧ isSp x = false := by
  refine ⟨c, ?_, hsp⟩
  rw [String.data_append]
  exact List.mem_append_left _ hc

theorem pasoDFL_not_sp (norma tipo k : String) (h : pasoDFL norma tipo = some k) :
    ∃ c, c ∈ k.data ∧ isSp c = false := by
  unfold pasoDFL at h
  split at h
  · split at h
    case _ ny heq =>
      have hk : k = "DFL" ++ String.mk ny.1 ++ String.mk ny.2 := by simpa using h.symm
      subst hk
      exact head_mem_append_not_sp _ _ 'D'
        (by rw [String.data_append]; exact List.mem_append_left _ (by decide)) (by decide)
    · exact absurd h (by simp)
  · exact absurd h (by simp)

theorem pasoDL_not_sp (norma tipo k : String) (h : pasoDL norma tipo = some k) :
    ∃ c, c ∈ k.data ∧ isSp c = false := by
  unfold pasoDL at h
  split at h
  · split at h
    case _ ny heq =>
      have hk : k = "DL" ++ String.mk ny.1 ++ String.mk ny.2 := by simpa using h.symm
      subst hk
      exact head_mem_append_not_sp _ _ 'D'
        (by rw [String.data_append]; exact List.mem_append_left _ (by decide)) (by decide)
    · exact absurd h (by simp)
  · exact absurd h (by simp)

theorem pasoLey_not_sp (norma tipo k : String) (nn : Option String)
    (h : pasoLey norma tipo nn = some k) : ∃ c, c ∈ k.data ∧ isSp c = false := by
  unfold pasoLey at h
  split at h
  · split at h
    case _ g heq =>
      have hk : k = "L" ++ limpiar_numero (some (String.mk g)) := by simpa using h.symm
      subst hk
      exact head_mem_append_not_sp _ _ 'L' (by decide) (by decide)
    · split at h
      case _ s =>
        split at h
        · split at h
          case _ =>
            have hk : k = "L" ++ limpiar_numero (some s) := by simpa using h.symm
            subst hk
            exact head_mem_append_not_sp _ _ 'L' (by decide) (by decide)
          · exact absurd h (by simp)
        · exact absurd h (by simp)
      · exact absurd h (by simp)
  · exact absurd h (by simp)

theorem pasoDS_not_sp (norma tipo k : String) (h : pasoDS norma tipo = some k) :
    ∃ c, c ∈ k.data ∧ isSp c = false := by
  unfold pasoDS at h
  split at h
  · split at h
    case _ g heq =>
      have hk : k = "DS" ++ String.mk g := by simpa using h.symm
      subst hk
      exact head_mem_append_not_sp _ _ 'D' (by decide) (by decide)
    · exact absurd h (by simp)
  · exact absurd h (by simp)

theorem pasoIdnorma_not_sp (idn : Option String) (k : String) (h : pasoIdnorma idn = some k) :
    ∃ c, c ∈ k.data ∧ isSp c = false := by
  cases idn with
  | none =>
    have hk : k = "UNKNOWN" := by simpa [pasoIdnorma] using h.symm
    subst hk
    exact ⟨'U', by decide, by decide⟩
  | some s =>
    simp only [pasoIdnorma] at h
    split at h
    · have hk : k = "UNKNOWN" := by simpa using h.symm
      subst hk
      exact ⟨'U', by decide, by decide⟩
    · cases hp : pyInt s with
      | none => rw [hp] at h; exact absurd h (by simp)
      | some n =>
        rw [hp] at h
        have hk : k = "N" ++ pyIntStr n := by simpa using h.symm
        subst hk
        exact head_mem_append_not_sp _ _ 'N' (by decide) (by decide)

theorem cascada_not_sp (norma tipo : String) (nn idn : Option String) (k : String)
    (h : cascada norma tipo nn idn = some k) : ∃ c, c ∈ k.data ∧ isSp c = false := by
  unfold cascada at h
  split at h
  case _ heq => exact pasoEspeciales_not_sp _ _ _ (heq.trans (congrArg some (by simpa using h)))
  split at h
  case _ heq => exact pasoDFL_not_sp _ _ _ (heq.trans (congrArg some (by simpa using h)))
  split at h
  case _ heq => exact pasoDL_not_sp _ _ _ (heq.trans (congrArg some (by simpa using h)))
  split at h
  case _ heq => exact pasoLey_not_sp _ _ _ _ (heq.trans (congrArg some (by simpa using h)))
  split at h
  case _ heq => exact pasoDS_not_sp _ _ _ (heq.trans (congrArg some (by simpa using h)))
  exact pasoIdnorma_not_sp _ _ h

theorem claveDerivada_not_sp (r : Row) (k : String) (h : claveDerivada r = some k) :
    ∃ c, c ∈ k.data ∧ isSp c = false :=
  cascada_not_sp _ _ _ _ _ h

theorem generar_clave_not_sp (r : Row) (k : String) (h : generar_clave r = some k) :
    ∃ c, c ∈ k.data ∧ isSp c = false := by
  unfold generar_clave at h
  split at h
  case _ m hm =>
    split at h
    · exact claveDerivada_not_sp r k h
    case _ hne =>
      have hk : k = pyUpper (pyStrip m) := by simpa using h.symm
      subst hk
      have hdata : pyStrip m ≠ "" := hne
      have hd : stripL m.data ≠ [] := by
        intro hc
        exact hdata (by simp [pyStrip, hc])
      obtain ⟨c, hc, hcs⟩ := stripL_exists_not_sp m.data hd
      exact ⟨upChar c, by rw [pyUpper_data, pyStrip_data]; exact List.mem_map_of_mem upChar hc,
        upChar_not_sp c hcs⟩
  · exact claveDerivada_not_sp r k h

/-! The claims. -/

/-- Claim C1, counterexample.  The claim that the party-name normalizer maps
the three variant spellings to one identical string is false on the code:
normalizar_nombreparte applied to the abbreviated spelling yields a string
different from the one obtained for the full accented spelling, because the
leading-art expansion also fires on the art prefix of an already-expanded
articulo. -/
theorem C1_counterexample :
    ¬ (normalizar_nombreparte (some "Art. 5") = normalizar_nombreparte (some "artículo   5") ∧
       normalizar_nombreparte (some "artículo   5") =
         normalizar_nombreparte (some "Articulo 5")) := by
  decide

/-- Claim C1, amended.  normalize("artículo   5") and normalize("Articulo 5")
coincide (both give "articulo iculo 5", the leading-art expansion having
re-expanded the art prefix of the full word), while normalize("Art. 5")
yields "articulo 5"; the three inputs therefore collapse to two distinct
normalized values, not one. -/
theorem C1_amended :
    normalizar_nombreparte (some "artículo   5") = normalizar_nombreparte (some "Articulo 5") ∧
    normalizar_nombreparte (some "Articulo 5") = "articulo iculo 5" ∧
    normalizar_nombreparte (some "Art. 5") = "articulo 5" := by
  decide

/-- Claim C2, counterexample.  The claim says the empty article-number cell is
backfilled from the ArticleExtractor applied to the party description; on the
code the backfill value comes from the key decomposition instead: for a row
with manual key CTRIB.Art31, a null numero_articulo cell and party
description "articulo 99", the stored article is "31" (from decomposition)
although the extractor yields "99". -/
theorem C2_counterexample :
    procesarFila (FullRow.mk (Row.mk (some "CTRIB.Art31") none none none none)
      (some none) (some "articulo 99")) = some (some "CTRIB", some "31") ∧
    extraer_numero_articulo (some "articulo 99") = "99" ∧
    (some "31" : Option String) ≠ some "99" := by
  decide

/-- Claim C2, amended.  A non-null numero_articulo cell is never overwritten,
and a missing column or null cell is backfilled from the article produced by
the key decomposition of the resolved key (stage 2), not from the
ArticleExtractor (stage 3), which the pipeline never invokes. -/
theorem C2_amended :
    (∀ (fr : FullRow) (v : String) (res : Option String × Option String),
      fr.numero_articulo = some (some v) → procesarFila fr = some res → res.2 = some v) ∧
    (∀ (fr : FullRow) (res : Option String × Option String),
      fr.numero_articulo = none ∨ fr.numero_articulo = some none →
      procesarFila fr = some res →
      ∃ k, generar_clave fr.fila = some k ∧
        res.2 = (separar_clave_y_articulo (some k)).2) := by
  constructor
  · intro fr v res hcell h
    unfold procesarFila at h
    cases hg : generar_clave fr.fila with
    | none => rw [hg] at h; exact absurd h (by simp)
    | some k =>
      rw [hg, hcell] at h
      have hres : res = ((separar_clave_y_articulo (some k)).1, some v) := by
        simpa [fillnaCell] using h.symm
      rw [hres]
  · intro fr res hcell h
    unfold procesarFila at h
    cases hg : generar_clave fr.fila with
    | none => rw [hg] at h; exact absurd h (by simp)
    | some k =>
      rw [hg] at h
      refine ⟨k, rfl, ?_⟩
      rcases hcell with hc | hc <;> rw [hc] at h
      · have hres : res = ((separar_clave_y_articulo (some k)).1,
            (separar_clave_y_articulo (some k)).2) := by
          simpa using h.symm
        rw [hres]
      · have hres : res = ((separar_clave_y_articulo (some k)).1,
            fillnaCell none (separar_clave_y_articulo (some k)).2) := by
          simpa using h.symm
        rw [hres]
        simp [fillnaCell]

/-- Claim C2, witness for the amended theorem at a concrete row: a present
article number "7" survives the pipeline untouched. -/
theorem C2_witness :
    procesarFila (FullRow.mk (Row.mk (some "X1") none none none none)
      (some (some "7")) none) = some (some "X1", some "7") ∧
    ((some "X1", some "7") : Option String × Option String).2 = some "7" :=
  ⟨by decide,
   C2_amended.1 (FullRow.mk (Row.mk (some "X1") none none none none) (some (some "7")) none)
     "7" (some "X1", some "7") rfl (by decide)⟩

/-- Claim C3, counterexample.  The claimed end-to-end resolution is false on
the code: for the row with norm type Ley and description "Ley N° 19.496"
(no manual key, no norm number), the ley pattern does not match — its
optional marker group only accepts num or núm, not the N° form — so the
resolver falls through every step and returns UNKNOWN, not L19496. -/
theorem C3_counterexample :
    generar_clave (Row.mk none (some "Ley N° 19.496") (some "Ley") none none) =
      some "UNKNOWN" ∧
    generar_clave (Row.mk none (some "Ley N° 19.496") (some "Ley") none none) ≠
      some "L19496" := by
  decide

/-- Claim C3, amended.  The ley step resolves to L19496 (all non-digits of
the captured number stripped before prefixing L) when the number follows ley
directly or via a num/núm marker, e.g. for descriptions "Ley 19.496" and
"Ley núm. 19.496"; the N° spelling of the original claim is not accepted by
the pattern and such a row yields UNKNOWN. -/
theorem C3_amended :
    generar_clave (Row.mk none (some "Ley 19.496") (some "Ley") none none) = some "L19496" ∧
    generar_clave (Row.mk none (some "Ley núm. 19.496") (some "Ley") none none) =
      some "L19496" ∧
    limpiar_numero (some "19.496") = "19496" := by
  decide

/-- Claim C4, counterexample.  The resolver can raise: a row whose
norma_idnorma cell holds the non-numeric string "abc" (all other fields
empty) reaches the final branch, where Python int raises ValueError —
modelled here by generar_clave returning none instead of a key. -/
theorem C4_counterexample :
    generar_clave (Row.mk none none none none (some "abc")) = none := by
  decide

/-- Claim C4, amended.  The resolver terminates normally with a key (falling
back to the sentinel UNKNOWN) for every row whose norm id field is missing,
empty, or parses as an integer; only a present, non-empty, non-integer
norm id reaching the final branch raises. -/
theorem C4_no_raise (r : Row)
    (h : r.norma_idnorma = none ∨ r.norma_idnorma = some "" ∨
      ∃ s, r.norma_idnorma = some s ∧ (pyInt s).isSome = true) :
    (generar_clave r).isSome = true := by
  have hlast : (pasoIdnorma r.norma_idnorma).isSome = true := by
    rcases h with h1 | h1 | ⟨s, h1, h2⟩ <;> rw [h1]
    · simp [pasoIdnorma]
    · simp [pasoIdnorma]
    · simp only [pasoIdnorma]
      split
      · simp
      · simpa using h2
  have hcas : ∀ norma tipo nn, (cascada norma tipo nn r.norma_idnorma).isSome = true := by
    intro norma tipo nn
    unfold cascada
    split
    · simp
    split
    · simp
    split
    · simp
    split
    · simp
    split
    · simp
    exact hlast
  unfold generar_clave
  split
  · split
    · exact hcas _ _ _
    · simp
  · exact hcas _ _ _

/-- Claim C4, witness: a numeric norm id resolves without raising. -/
theorem C4_witness :
    (generar_clave (Row.mk none none none none (some "824"))).isSome = true :=
  C4_no_raise (Row.mk none none none none (some "824"))
    (Or.inr (Or.inr ⟨"824", rfl, by decide⟩))

/-- Claim C5.  A present manual key that is non-blank after trimming is
returned trimmed and uppercased, whatever the other fields hold; no derived
step is consulted. -/
theorem C5_manual_override (r : Row) (m : String)
    (hm : r.clave_manual = some m) (hne : pyStrip m ≠ "") :
    generar_clave r = some (pyUpper (pyStrip m)) := by
  unfold generar_clave
  rw [hm]
  simp [hne]

/-- Claim C5, witness: the manual key wins even when every other field would
produce a different derived key. -/
theorem C5_witness :
    pyStrip "  ctrib.Art31 " ≠ "" ∧
    generar_clave (Row.mk (some "  ctrib.Art31 ") (some "codigo penal") (some "ley")
      (some "9") (some "77")) = some (pyUpper (pyStrip "  ctrib.Art31 ")) :=
  ⟨by decide,
   C5_manual_override
     (Row.mk (some "  ctrib.Art31 ") (some "codigo penal") (some "ley") (some "9") (some "77"))
     "  ctrib.Art31 " rfl (by decide)⟩

/-- Claim C6.  The decomposer splits the three cited keys as claimed, and any
key whose cleaned form does not carry the composite suffix — a non-empty
all-key-character prefix, a dot, ART, digits and optional letters reaching
the end — passes through unchanged (trimmed and uppercased) with a null
article. -/
theorem C6_decompose :
    separar_clave_y_articulo (some "CTRIB.ART31") = (some "CTRIB", some "31") ∧
    separar_clave_y_articulo (some "DL824.1974.ART41E") = (some "DL824.1974", some "41E") ∧
    separar_clave_y_articulo (some "CPCH") = (some "CPCH", none) ∧
    ∀ k : String,
      (¬ ∃ p a d l, (pyUpper (pyStrip k)).data = p ++ ('.' :: 'A' :: 'R' :: 'T' :: a) ∧
          p ≠ [] ∧ (∀ c ∈ p, keyCharB c = true) ∧ a = d ++ l ∧ d ≠ [] ∧
          (∀ c ∈ d, c.isDigit = true) ∧ (∀ c ∈ l, letterB c = true)) →
      separar_clave_y_articulo (some k) = (some (pyUpper (pyStrip k)), none) := by
  refine ⟨by decide, by decide, by decide, ?_⟩
  intro k hno
  cases hf : findArtSplit (pyUpper (pyStrip k)).data with
  | none => simp [separar_clave_y_articulo, hf]
  | some pa =>
    exfalso
    obtain ⟨hshape, hne, hkeys, d, l, hdl, hdne, hdig, hlet⟩ := findArtSplit_sound _ pa hf
    exact hno ⟨pa.1, pa.2, d, l, hshape, hne, hkeys, hdl, hdne, hdig, hlet⟩

/-- Claim C6, witness: a key with no dot cannot carry the composite suffix
and passes through. -/
theorem C6_witness :
    separar_clave_y_articulo (some "NOSUF") = (some (pyUpper (pyStrip "NOSUF")), none) :=
  C6_decompose.2.2.2 "NOSUF" (by
    rintro ⟨p, a, d, l, heq, hp, hkey, ha, hd, hdig, hlet⟩
    have hm : '.' ∈ (pyUpper (pyStrip "NOSUF")).data := by
      rw [heq]
      exact List.mem_append_right _ (List.mem_cons_self _ _)
    revert hm
    decide)

/-- Claim C7, counterexample.  The claim that null OR EMPTY raw keys both
yield the (null, null) sentinel pair is false for the empty string: pd.isna
is false on "", so the empty string takes the regular path, fails the regex
and is returned as an empty-string base with a null article. -/
theorem C7_counterexample :
    separar_clave_y_articulo (some "") = (some "", none) ∧
    separar_clave_y_articulo (some "") ≠ (none, none) := by
  decide

/-- Claim C7, amended.  Only a null (None/NaN) raw key yields the
(null, null) sentinel pair; the empty string instead passes through as
(empty base, null article). -/
theorem C7_amended :
    separar_clave_y_articulo none = (none, none) ∧
    separar_clave_y_articulo (some "") = (some "", none) := by
  decide

/-- Claim C8.  For every row on which the resolver returns, the base key
stored after resolve followed by decompose is some non-empty string with no
ASCII lowercase letter, and the row with every field empty receives the
sentinel UNKNOWN — never an empty or null key. -/
theorem C8_key_invariant :
    (∀ (r : Row) (k : String), generar_clave r = some k →
      ∃ b, (separar_clave_y_articulo (some k)).1 = some b ∧ b ≠ "" ∧
        b.data.all (fun c => !asciiLowerB c) = true) ∧
    generar_clave (Row.mk none none none none none) = some "UNKNOWN" := by
  constructor
  · intro r k h
    obtain ⟨c, hc, hcs⟩ := generar_clave_not_sp r k h
    cases hf : findArtSplit (pyUpper (pyStrip k)).data with
    | some pa =>
      have hsep : separar_clave_y_articulo (some k) =
          (some (pyUpper (String.mk pa.1)), some (String.mk pa.2)) := by
        simp [separar_clave_y_articulo, hf]
      obtain ⟨hshape, hne, hkeys, hart⟩ := findArtSplit_sound _ pa hf
      refine ⟨pyUpper (String.mk pa.1), by rw [hsep], ?_, pyUpper_noLower _⟩
      apply string_ne_empty_of_data
      rw [pyUpper_data]
      simpa using hne
    | none =>
      have hsep : separar_clave_y_articulo (some k) = (some (pyUpper (pyStrip k)), none) := by
        simp [separar_clave_y_articulo, hf]
      refine ⟨pyUpper (pyStrip k), by rw [hsep], ?_, pyUpper_noLower _⟩
      apply string_ne_empty_of_data
      rw [pyUpper_data, pyStrip_data]
      simpa using stripL_ne_nil k.data c hc hcs
  · decide

/-- Claim C8, witness: the special-code key CPCH survives decomposition as a
non-empty uppercase base. -/
theorem C8_witness :
    ∃ b, (separar_clave_y_articulo (some "CPCH")).1 = some b ∧ b ≠ "" ∧
      b.data.all (fun c => !asciiLowerB c) = true :=
  C8_key_invariant.1 (Row.mk none (some "codigo penal") none none none) "CPCH" (by decide)

/-- Claim C9.  When a typed step fires but its pattern fails, the resolver
falls through: on the row with norm type "decreto con fuerza de ley" and
description "decreto supremo n° 5", the DFL containment test holds yet the
DFL pattern finds nothing, the ley containment test holds (the type contains
ley) yet the ley pattern finds nothing, and the row finally resolves to DS5
in the decreto-supremo step. -/
theorem C9_fallthrough :
    substrS "decreto con fuerza de ley" (pyStrip (pyLower "decreto con fuerza de ley")) =
      true ∧
    scanL matchDFLAt (pyStrip (pyLower "decreto supremo n° 5")).data = none ∧
    substrS "ley" (pyStrip (pyLower "decreto con fuerza de ley")) = true ∧
    scanL matchLeyAt (pyStrip (pyLower "decreto supremo n° 5")).data = none ∧
    generar_clave (Row.mk none (some "decreto supremo n° 5")
      (some "decreto con fuerza de ley") none none) = some "DS5" := by
  decide

/-- Claim C10.  The article marker is not anchored at a word boundary: the
input "part 31" contains neither the word articulo nor the abbreviation
art. as a substring marker of its own, yet the extractor matches the art
inside part and returns "31" rather than the empty string. -/
theorem C10_not_anchored :
    extraer_numero_articulo (some "part 31") = "31" ∧
    substrS "articulo" (pyStrip (pyLower "part 31")) = false ∧
    substrS "art." (pyStrip (pyLower "part 31")) = false ∧
    ("31" : String) ≠ "" := by
  decide

end Legitimus
